import Mathlib

/-!
Shallow embedding of the PhoenixNet-Labs network-map loader and layout engine.

The embedding covers:
* the topology data model declared in `src/network-map/src/app/utils/network-parser.ts`
  (`NetworkConfig`, `Site`, `Device`, the four connection kinds);
* `parseNetworkConfig` from the same file: site base positions (a JS record keyed
  by site id, written in input order, so a later duplicate id overwrites an
  earlier one), device grid placement, the per-site dimension record (also keyed
  by site id and threaded mutably through the site loop), background and header
  nodes, and the four edge-emission loops;
* the four orthogonal edge-routing components
  (`OrthogonalConnectionEdge`, `OrthogonalVpnEdge` — the `vpnEdge`/`connectionEdge`
  types registered in `NetworkMap.tsx` — `OrthogonalTrunkEdge.tsx`,
  `OrthogonalSanEdge.tsx`), each translated into a function producing the list of
  path points denoted by the `M`/`H`/`V` SVG commands the component assembles;
* the untyped (pre-`as NetworkConfig`) behavior of the loader for documents with
  missing required fields (`loadRaw`).

Coordinates produced by the parser are integers (`ℤ`); the routing components
receive arbitrary pixel coordinates from the rendering library, modelled as `ℚ`.
JavaScript character codes (`charCodeAt`) agree with `Char.toNat` on the
basic multilingual plane, which covers every identifier the parser builds.
Pure presentation attributes (stroke colors, dash patterns, marker ends, CSS)
are not modelled; every structural field the claims mention is.
-/

namespace NetworkMap

/-- Virtual machine entry (`interface VirtualMachine` in network-parser.ts). -/
structure VirtualMachine where
  name : String
  ip : String := ""
  os : String := ""
  deriving DecidableEq, Repr

/-- Generic / trunk / SAN connection (`interface BaseConnection`): a target
device id and an optional label. -/
structure Connection where
  «to» : String
  label : Option String := none
  deriving DecidableEq, Repr

/-- VPN connection (`interface VpnConnection`): a target site id and an
optional label. -/
structure VpnConnection where
  to_site : String
  label : Option String := none
  deriving DecidableEq, Repr

/-- Device (`interface Device` in network-parser.ts). -/
structure Device where
  id : String
  type : String
  name : String := ""
  ip : Option String := none
  model : Option String := none
  os : Option String := none
  hypervisor_type : Option String := none
  virtual_machines : Option (List VirtualMachine) := none
  connections : Option (List Connection) := none
  vpn_connections : Option (List VpnConnection) := none
  trunk_connections : Option (List Connection) := none
  san_connections : Option (List Connection) := none
  deriving DecidableEq, Repr

/-- Site (`interface Site` in network-parser.ts). -/
structure Site where
  id : String
  name : String := ""
  location : String := ""
  devices : List Device
  deriving DecidableEq, Repr

/-- Root configuration (`interface NetworkConfig`). -/
structure NetworkConfig where
  name : String := ""
  description : String := ""
  sites : List Site
  deriving DecidableEq, Repr

/-- A ReactFlow node as built by `parseNetworkConfig`: device nodes
(`type: 'networkNode'`), site background nodes (`type: 'group'`, carrying the
computed width/height in their style) and site header nodes
(`type: 'siteHeader'`). -/
structure RFNode where
  id : String
  x : ℤ
  y : ℤ
  ntype : String
  label : String := ""
  width : ℤ := 0
  height : ℤ := 0
  devType : Option String := none
  devIp : Option String := none
  devModel : Option String := none
  devOs : Option String := none
  hypervisorType : Option String := none
  virtualMachines : Option (List VirtualMachine) := none
  deriving DecidableEq, Repr

/-- A ReactFlow edge as built by `parseNetworkConfig`.  `dataIndex` carries the
per-kind index stored in `data` (`connectionIndex` / `vpnIndex` / `trunkIndex` /
`sanIndex`); `isCrossSite` is the VPN-only `data.isCrossSite` flag. -/
structure RFEdge where
  id : String
  source : String
  target : String
  etype : String
  label : Option String := none
  sourceHandle : String := "right"
  targetHandle : String := "left"
  animated : Bool := false
  dataIndex : ℕ := 0
  isCrossSite : Option Bool := none
  deriving DecidableEq, Repr

/-- JavaScript string-or-default: `x || 'default'` on an optional string field,
where `undefined` and the empty string are both falsy. -/
def jsOrDefault (o : Option String) (d : String) : String :=
  match o with
  | none => d
  | some s => if s = "" then d else s

/-- A JavaScript record (`Record<string, v>`): represented as an association
list where a later `recSet` shadows earlier entries for the same key. -/
def Rec (v : Type) : Type := List (String × v)

/-- Write `m[k] = x` (last write wins: new entries are consed in front and
`recGet` returns the first hit). -/
def recSet {v : Type} (m : Rec v) (k : String) (x : v) : Rec v :=
  (k, x) :: m

/-- Read `m[k]`, `none` when the key was never written. -/
def recGet {v : Type} (m : Rec v) (k : String) : Option v :=
  (List.find? (fun p => p.1 == k) m).map (fun p => p.2)

/-- First loop of `parseNetworkConfig` (lines 76–87): build the
`sitePositions` record, assigning `{x: index * 1100, y: 100}` to each site id
in input order (so a duplicate site id keeps only the last index's position). -/
def sitePositionsAux (m : Rec (ℤ × ℤ)) : ℕ → List Site → Rec (ℤ × ℤ)
  | _, [] => m
  | i, s :: rest => sitePositionsAux (recSet m s.id (((i : ℤ)) * 1100, 100)) (i + 1) rest

/-- The `sitePositions` record after the first loop, with `siteSpacing = 1100`. -/
def sitePositions (cfg : NetworkConfig) : Rec (ℤ × ℤ) :=
  sitePositionsAux [] 0 cfg.sites

/-- Initialization of the `siteDimensions` record in the first loop: every site
id is set to width 0, height 0 (the `deviceCount` field is initialized too but
never read afterwards, so it is not modelled). -/
def siteDimensionsInit (m : Rec (ℤ × ℤ)) : List Site → Rec (ℤ × ℤ)
  | [] => m
  | s :: rest => siteDimensionsInit (recSet m s.id (0, 0)) rest

/-- Grid position of the device at index `j` of its site (lines 100–106):
`row = ⌊j / 3⌋`, `col = j % 3`, placed at
`(base.x + col * 250 + 150, base.y + 100 + row * 250)`. -/
def devicePosition (base : ℤ × ℤ) (j : ℕ) : ℤ × ℤ :=
  (base.1 + ((j % 3 : ℕ) : ℤ) * 250 + 150, base.2 + 100 + ((j / 3 : ℕ) : ℤ) * 250)

/-- The ReactFlow node pushed for one device (lines 109–126). -/
def mkDeviceNode (base : ℤ × ℤ) (j : ℕ) (d : Device) : RFNode :=
  { id := d.id
    x := (devicePosition base j).1
    y := (devicePosition base j).2
    ntype := "networkNode"
    label := d.name
    devType := some d.type
    devIp := d.ip
    devModel := d.model
    devOs := d.os
    hypervisorType := d.hypervisor_type
    virtualMachines := d.virtual_machines }

/-- The device nodes of one site, in input order (the `site.devices.forEach`
loop), starting at device index `j`. -/
def deviceNodesAux (base : ℤ × ℤ) : ℕ → List Device → List RFNode
  | _, [] => []
  | j, d :: rest => mkDeviceNode base j d :: deviceNodesAux base (j + 1) rest

/-- Width-tracking fold of the device loop (lines 130–132): for each device,
`rightEdge - base.x = col * 250 + 150 + 150`, max-accumulated into the running
width (which starts from whatever the `siteDimensions` record held). -/
def siteWidthFold (w : ℤ) : ℕ → List Device → ℤ
  | _, [] => w
  | j, _ :: rest => siteWidthFold (max w (((j % 3 : ℕ) : ℤ) * 250 + 150 + 150)) (j + 1) rest

/-- Height-tracking fold of the device loop (lines 131–133):
`bottomEdge - base.y = 100 + row * 250 + 150`. -/
def siteHeightFold (h : ℤ) : ℕ → List Device → ℤ
  | _, [] => h
  | j, _ :: rest => siteHeightFold (max h (100 + ((j / 3 : ℕ) : ℤ) * 250 + 150)) (j + 1) rest

/-- `minWidth = max(600, min(3, site.devices.length) * 250)` (line 255). -/
def siteMinWidth (s : Site) : ℤ :=
  max 600 (min 3 ((s.devices.length : ℤ)) * 250)

/-- `minHeight = max(350, rows * 250 + 100)` with
`rows = ⌈site.devices.length / 3⌉` (lines 256–257). -/
def siteMinHeight (s : Site) : ℤ :=
  max 350 (((((s.devices.length + 2) / 3 : ℕ)) : ℤ) * 250 + 100)

/-- Final padded width stored back into `siteDimensions` (line 260), given the
width `w0` the record held when the site's processing started. -/
def sitePaddedWidth (w0 : ℤ) (s : Site) : ℤ :=
  max (siteMinWidth s) (siteWidthFold w0 0 s.devices + 200)

/-- Final padded height stored back into `siteDimensions` (line 261). -/
def sitePaddedHeight (h0 : ℤ) (s : Site) : ℤ :=
  max (siteMinHeight s) (siteHeightFold h0 0 s.devices + 200)

/-- The site background node (lines 264–286): position `(base.x - 50,
base.y - 150)`, style width the padded width and style height the padded
height plus 100. -/
def mkBgNode (base : ℤ × ℤ) (w h : ℤ) (s : Site) : RFNode :=
  { id := "site-" ++ s.id ++ "-bg"
    x := base.1 - 50
    y := base.2 - 150
    ntype := "group"
    width := w
    height := h + 100 }

/-- The site header node (lines 307–336): position `(base.x - 20, base.y - 180)`,
fixed 260 × 50 box labelled with the site name. -/
def mkHeaderNode (base : ℤ × ℤ) (s : Site) : RFNode :=
  { id := "site-" ++ s.id ++ "-header"
    x := base.1 - 20
    y := base.2 - 180
    ntype := "siteHeader"
    label := s.name
    width := 260
    height := 50 }

/-- The base position a site reads back from the `sitePositions` record
(`sitePositions[site.id]`). -/
def siteBase (cfg : NetworkConfig) (s : Site) : ℤ × ℤ :=
  (recGet (sitePositions cfg) s.id).getD (0, 0)

/-- The background node a site's iteration produces, given the state of the
`siteDimensions` record when the iteration starts. -/
def bgOfSite (cfg : NetworkConfig) (dims : Rec (ℤ × ℤ)) (s : Site) : RFNode :=
  let wh := (recGet dims s.id).getD (0, 0)
  mkBgNode (siteBase cfg s) (sitePaddedWidth wh.1 s) (sitePaddedHeight wh.2 s) s

/-- The `siteDimensions` record after a site's iteration (max-updated through
the device loop, then overwritten with the padded dimensions, line 260–261). -/
def dimsAfterSite (dims : Rec (ℤ × ℤ)) (s : Site) : Rec (ℤ × ℤ) :=
  let wh := (recGet dims s.id).getD (0, 0)
  recSet dims s.id (sitePaddedWidth wh.1 s, sitePaddedHeight wh.2 s)

/-- The node-building site loop (second `forEach`).  Per site: the device nodes
are pushed in order, then the background node is `unshift`ed onto the front of
the whole accumulated array, then the header node is pushed; the
`siteDimensions` record is max-updated during the device loop and overwritten
with the padded dimensions, all keyed by `site.id`. -/
def parseNodesAux (cfg : NetworkConfig) : List RFNode → Rec (ℤ × ℤ) → List Site → List RFNode
  | acc, _, [] => acc
  | acc, dims, s :: rest =>
    parseNodesAux cfg
      (bgOfSite cfg dims s ::
        (acc ++ deviceNodesAux (siteBase cfg s) 0 s.devices ++ [mkHeaderNode (siteBase cfg s) s]))
      (dimsAfterSite dims s) rest

/-- One standard connection edge (lines 138–150). -/
def mkConnEdge (d : Device) (i : ℕ) (c : Connection) : RFEdge :=
  { id := "connection-" ++ d.id ++ "-" ++ c.«to» ++ "-" ++ toString i
    source := d.id
    target := c.«to»
    etype := "connectionEdge"
    label := c.label
    dataIndex := i }

/-- The `device.connections` loop: one edge per entry, unconditionally. -/
def connectionEdgesAux (d : Device) : ℕ → List Connection → List RFEdge
  | _, [] => []
  | i, c :: rest => mkConnEdge d i c :: connectionEdgesAux d (i + 1) rest

/-- All standard connection edges of a device (`if (device.connections)`). -/
def connectionEdges (d : Device) : List RFEdge :=
  connectionEdgesAux d 0 (d.connections.getD [])

/-- One trunk edge (lines 203–222); the label defaults to `'Trunk'` via JS `||`. -/
def mkTrunkEdge (d : Device) (i : ℕ) (c : Connection) : RFEdge :=
  { id := "trunk-" ++ d.id ++ "-" ++ c.«to» ++ "-" ++ toString i
    source := d.id
    target := c.«to»
    etype := "trunkEdge"
    label := some (jsOrDefault c.label "Trunk")
    dataIndex := i }

/-- The `device.trunk_connections` loop: one edge per entry, unconditionally. -/
def trunkEdgesAux (d : Device) : ℕ → List Connection → List RFEdge
  | _, [] => []
  | i, c :: rest => mkTrunkEdge d i c :: trunkEdgesAux d (i + 1) rest

/-- All trunk edges of a device. -/
def trunkEdges (d : Device) : List RFEdge :=
  trunkEdgesAux d 0 (d.trunk_connections.getD [])

/-- One SAN edge (lines 229–249); the label defaults to `'SAN'` via JS `||`. -/
def mkSanEdge (d : Device) (i : ℕ) (c : Connection) : RFEdge :=
  { id := "san-" ++ d.id ++ "-" ++ c.«to» ++ "-" ++ toString i
    source := d.id
    target := c.«to»
    etype := "sanEdge"
    label := some (jsOrDefault c.label "SAN")
    dataIndex := i }

/-- The `device.san_connections` loop: one edge per entry, unconditionally. -/
def sanEdgesAux (d : Device) : ℕ → List Connection → List RFEdge
  | _, [] => []
  | i, c :: rest => mkSanEdge d i c :: sanEdgesAux d (i + 1) rest

/-- All SAN edges of a device. -/
def sanEdges (d : Device) : List RFEdge :=
  sanEdgesAux d 0 (d.san_connections.getD [])

/-- VPN target resolution (lines 158–161): the first site whose id equals
`to_site`, then the first device of type `router` in that site. -/
def vpnResolve (cfg : NetworkConfig) (v : VpnConnection) : Option (Site × Device) :=
  (cfg.sites.find? (fun s => s.id == v.to_site)).bind
    (fun ts => (ts.devices.find? (fun dd => dd.type == "router")).map (fun r => (ts, r)))

/-- The VPN edge pushed for a resolved entry (lines 166–194): label defaults to
`'VPN'`, `data.isCrossSite` records whether the resolved site differs from the
device's own site. -/
def mkVpnEdge (site : Site) (d : Device) (i : ℕ) (v : VpnConnection) (ts : Site) (r : Device) : RFEdge :=
  { id := "vpn-" ++ d.id ++ "-" ++ r.id ++ "-" ++ toString i
    source := d.id
    target := r.id
    etype := "vpnEdge"
    label := some (jsOrDefault v.label "VPN")
    animated := true
    dataIndex := i
    isCrossSite := some (ts.id != site.id) }

/-- Edges contributed by one `vpn_connections` entry: one edge when the target
resolves, none otherwise (the `if (targetSite)` / `if (targetRouter)` guards). -/
def vpnEntryEdges (cfg : NetworkConfig) (site : Site) (d : Device) (i : ℕ) (v : VpnConnection) :
    List RFEdge :=
  match vpnResolve cfg v with
  | none => []
  | some (ts, r) => [mkVpnEdge site d i v ts r]

/-- The `device.vpn_connections` loop. -/
def vpnEdgesAux (cfg : NetworkConfig) (site : Site) (d : Device) : ℕ → List VpnConnection → List RFEdge
  | _, [] => []
  | i, v :: rest => vpnEntryEdges cfg site d i v ++ vpnEdgesAux cfg site d (i + 1) rest

/-- All VPN edges of a device. -/
def vpnEdges (cfg : NetworkConfig) (site : Site) (d : Device) : List RFEdge :=
  vpnEdgesAux cfg site d 0 (d.vpn_connections.getD [])

/-- All edges pushed while processing one device, in push order:
standard, VPN, trunk, SAN. -/
def deviceEdges (cfg : NetworkConfig) (site : Site) (d : Device) : List RFEdge :=
  connectionEdges d ++ vpnEdges cfg site d ++ trunkEdges d ++ sanEdges d

/-- Edges pushed while processing one site's devices, in order. -/
def siteEdgesAux (cfg : NetworkConfig) (site : Site) : List Device → List RFEdge
  | [] => []
  | d :: rest => deviceEdges cfg site d ++ siteEdgesAux cfg site rest

/-- Edges pushed over all sites, in order. -/
def parseEdgesAux (cfg : NetworkConfig) : List Site → List RFEdge
  | [] => []
  | s :: rest => siteEdgesAux cfg s s.devices ++ parseEdgesAux cfg rest

/-- Result of `parseNetworkConfig`. -/
structure ParseResult where
  nodes : List RFNode
  edges : List RFEdge
  deriving DecidableEq, Repr

/-- `parseNetworkConfig` (network-parser.ts lines 59–344) on a well-typed
configuration: the node array (devices in input order, background nodes
`unshift`ed so they end up reversed at the front, headers appended) and the
edge array. -/
def parseNetworkConfig (cfg : NetworkConfig) : ParseResult :=
  { nodes := parseNodesAux cfg [] (siteDimensionsInit [] cfg.sites) cfg.sites
    edges := parseEdgesAux cfg cfg.sites }


/-! ## Edge routing components

Each of the four edge components computes a deterministic stagger index from
the edge id and assembles an SVG path string out of `M`, `H` and `V` commands.
The functions below return the list of points those commands trace, in order:
`M x y` starts at `(x, y)`, `H x` moves horizontally to `(x, current y)`,
`V y` moves vertically to `(current x, y)`. -/

/-- The stagger index computed identically in all four components:
`id.split('').reduce((sum, char) => sum + char.charCodeAt(0), 0) % 3`. -/
def edgeNumber (id : String) : ℕ :=
  (id.data.foldl (fun sum c => sum + c.toNat) 0) % 3

/-- JavaScript `s.includes(pat)`: some suffix of `s` starts with `pat`. -/
def strIncludes (s pat : String) : Bool :=
  s.data.tails.any (fun t => pat.data.isPrefixOf t)

/-- `OrthogonalConnectionEdge` (standard connections): node clearance constants
`nodeWidth = 150`, `nodeHeight = 70`, `nodeClearance = 10`,
`safeHorizontalOffset = max(85, 30)`, `safeVerticalOffset = max(45, 25)`,
stagger step 10. -/
def connectionPath (id : String) (sx sy tx ty : ℚ) : List (ℚ × ℚ) :=
  let n : ℚ := (edgeNumber id : ℚ)
  let goingRight := tx > sx
  let safeHorizontalOffset : ℚ := max (150 / 2 + 10) 30
  let safeVerticalOffset : ℚ := max (70 / 2 + 10) 25
  let horizontalOffset := safeHorizontalOffset + n * 10
  if |sy - ty| < safeVerticalOffset then
    [(sx, sy), (tx, sy)]
  else if |sx - tx| < safeHorizontalOffset then
    [(sx, sy), (sx, ty)]
  else
    let midX := if goingRight then sx + horizontalOffset else sx - horizontalOffset
    [(sx, sy), (midX, sy), (midX, ty), (tx, ty)]

/-- `OrthogonalVpnEdge` (VPN connections): clearance constants
`safeHorizontalOffset = max(95, 80)`, `safeVerticalOffset = max(55, 50)`,
stagger step 30, a special case for ids containing `'gateway'`
(case-insensitively), and a six-point detour for near-equal heights. -/
def vpnPath (id : String) (sx sy tx ty : ℚ) : List (ℚ × ℚ) :=
  let n : ℚ := (edgeNumber id : ℚ)
  let safeHorizontalOffset : ℚ := max (150 / 2 + 20) 80
  let safeVerticalOffset : ℚ := max (70 / 2 + 20) 50
  let edgeStaggerOffset := n * 30
  let horizontalOffset := safeHorizontalOffset + edgeStaggerOffset
  let verticalOffset := safeVerticalOffset + edgeStaggerOffset
  let isGatewayConnection := strIncludes id.toLower "gateway"
  if isGatewayConnection then
    let gatewayVerticalOffset := 100 + n * 50
    let direction : ℚ := if edgeNumber id % 2 = 0 then 1 else -1
    [(sx, sy), (sx + horizontalOffset, sy),
     (sx + horizontalOffset, sy + direction * gatewayVerticalOffset),
     (tx, sy + direction * gatewayVerticalOffset), (tx, ty)]
  else if |sy - ty| < safeVerticalOffset then
    let direction : ℚ := if edgeNumber id % 2 = 0 then 1 else -1
    let detourOffset := verticalOffset * (3 / 2) * direction
    [(sx, sy), (sx + horizontalOffset, sy),
     (sx + horizontalOffset, sy + detourOffset),
     (tx - horizontalOffset, sy + detourOffset),
     (tx - horizontalOffset, ty), (tx, ty)]
  else
    [(sx, sy), (sx + horizontalOffset, sy), (sx + horizontalOffset, ty), (tx, ty)]

/-- `OrthogonalTrunkEdge` (trunk connections): cross-site threshold 300 on the
horizontal distance, staggered mid-point detours, direct runs for near-equal
coordinates (tolerance 30), otherwise a staggered three-segment path. -/
def trunkPath (id : String) (sx sy tx ty : ℚ) : List (ℚ × ℚ) :=
  let n : ℚ := (edgeNumber id : ℚ)
  let horizontalDistance := |tx - sx|
  let verticalDistance := |ty - sy|
  if horizontalDistance > 300 then
    let verticalOffset := 20 + n * 40
    let midX := sx + (tx - sx) * (1 / 2)
    let offsetDirection : ℚ :=
      if edgeNumber id = 0 then 0 else if edgeNumber id = 1 then 1 else -1
    if offsetDirection = 0 then
      [(sx, sy), (midX, sy), (midX, ty), (tx, ty)]
    else
      let offsetY := sy + offsetDirection * verticalOffset
      [(sx, sy), (sx, offsetY), (midX, offsetY), (midX, ty), (tx, ty)]
  else if |sy - ty| < 30 then
    [(sx, sy), (tx, sy)]
  else if |sx - tx| < 30 then
    [(sx, sy), (sx, ty)]
  else
    let offsetDirection : ℚ := if edgeNumber id % 2 = 0 then 1 else -1
    let offsetAmount := 25 + n * 15
    if horizontalDistance > verticalDistance then
      let midY := sy + offsetDirection * offsetAmount
      [(sx, sy), (sx, midY), (tx, midY), (tx, ty)]
    else
      let midX := sx + offsetDirection * offsetAmount
      [(sx, sy), (midX, sy), (midX, ty), (tx, ty)]

/-- `OrthogonalSanEdge` (SAN connections): cross-site threshold 300, wider
staggered detours (base 40, step 50, directions 0 / −1 / +1 by stagger index),
direct runs for near-equal coordinates (tolerance 30), otherwise a staggered
path whose first move depends on whether the target lies below the source. -/
def sanPath (id : String) (sx sy tx ty : ℚ) : List (ℚ × ℚ) :=
  let n : ℚ := (edgeNumber id : ℚ)
  let horizontalDistance := |tx - sx|
  let goingDown := ty > sy
  if horizontalDistance > 300 then
    let verticalOffset := 40 + n * 50
    let midX := sx + (tx - sx) * (1 / 2)
    let offsetDirection : ℚ :=
      if edgeNumber id = 0 then 0 else if edgeNumber id = 1 then -1 else 1
    if offsetDirection = 0 then
      [(sx, sy), (midX, sy), (midX, ty), (tx, ty)]
    else
      let offsetY := sy + offsetDirection * verticalOffset
      [(sx, sy), (sx, offsetY), (midX, offsetY), (midX, ty), (tx, ty)]
  else if |sy - ty| < 30 then
    [(sx, sy), (tx, sy)]
  else if |sx - tx| < 30 then
    [(sx, sy), (sx, ty)]
  else
    let offsetDirection : ℚ := if edgeNumber id % 2 = 0 then 1 else -1
    let offsetAmount := 35 + n * 20
    if goingDown then
      let midX := sx + offsetDirection * offsetAmount
      [(sx, sy), (midX, sy), (midX, ty), (tx, ty)]
    else
      let midY := sy + offsetDirection * offsetAmount
      [(sx, sy), (sx, midY), (tx, midY), (tx, ty)]

/-- Dispatch an edge to its routing component, following the `edgeTypes`
registration in `NetworkMap.tsx` (edge types other than the four registered
ones never occur in parser output). -/
def edgePathFor (e : RFEdge) (sx sy tx ty : ℚ) : List (ℚ × ℚ) :=
  if e.etype = "connectionEdge" then connectionPath e.id sx sy tx ty
  else if e.etype = "vpnEdge" then vpnPath e.id sx sy tx ty
  else if e.etype = "trunkEdge" then trunkPath e.id sx sy tx ty
  else if e.etype = "sanEdge" then sanPath e.id sx sy tx ty
  else []

/-- One full load/layout run: parse the configuration, then route every emitted
edge at the anchor coordinates the renderer supplies (a map from edge id to
source/target anchors). -/
def pipelineRun (cfg : NetworkConfig) (anchors : String → ℚ × ℚ × ℚ × ℚ) :
    ParseResult × List (String × List (ℚ × ℚ)) :=
  let p := parseNetworkConfig cfg
  (p, p.edges.map (fun e =>
    (e.id, edgePathFor e (anchors e.id).1 (anchors e.id).2.1 (anchors e.id).2.2.1 (anchors e.id).2.2.2)))

/-- A path is axis-aligned when every consecutive pair of points agrees in the
x coordinate or in the y coordinate (no diagonal segment). -/
def axisAligned (l : List (ℚ × ℚ)) : Prop :=
  List.Chain' (fun p q => p.1 = q.1 ∨ p.2 = q.2) l

/-- The strict reading of axis-alignment: every consecutive pair differs in
exactly one coordinate (so zero-length segments are also excluded). -/
def strictAxisAligned (l : List (ℚ × ℚ)) : Prop :=
  List.Chain' (fun p q => (p.1 = q.1 ∧ p.2 ≠ q.2) ∨ (p.2 = q.2 ∧ p.1 ≠ q.1)) l

/-! ## Untyped loader behavior

`parseNetworkConfig` performs no schema validation: `yaml.load` returns an
arbitrary value and the `as NetworkConfig` cast is purely static.  The
definitions below embed the function's behavior on such untyped values:
a missing `sites` array or a missing per-site `devices` array makes the first
`forEach` throw a runtime `TypeError` (rethrown by the `catch` block), while a
missing per-site `id` or per-device `id`/`type` is simply read as `undefined`
and processing continues. -/

/-- A device value as `yaml.load` may produce it: any required field can be
absent. -/
structure RawDevice where
  id : Option String := none
  type : Option String := none
  deriving DecidableEq, Repr

/-- A site value with possibly-missing fields. -/
structure RawSite where
  id : Option String := none
  devices : Option (List RawDevice) := none
  deriving DecidableEq, Repr

/-- A root value with a possibly-missing `sites` field. -/
structure RawConfig where
  sites : Option (List RawSite) := none
  deriving DecidableEq, Repr

/-- The error that escapes `parseNetworkConfig` (the `catch` block logs and
rethrows): either the YAML library's parse exception or a runtime `TypeError`
from dereferencing a missing array. -/
inductive LoadError where
  | parseException (msg : String)
  | typeError
  deriving DecidableEq, Repr

/-- Untyped `parseNetworkConfig` behavior, starting from the result of
`yaml.load` (a parse exception, or a raw value): dereferencing
`networkConfig.sites` with `sites` missing throws, as does
`site.devices.length` for a site with `devices` missing (both in the first
loop, before any node is emitted); otherwise every device is processed, its
`id` and `type` read as possibly-`undefined` values, and the load succeeds. -/
def loadRaw (r : Except String RawConfig) :
    Except LoadError (List (Option String × Option String)) :=
  match r with
  | .error msg => .error (.parseException msg)
  | .ok cfg =>
    match cfg.sites with
    | none => .error .typeError
    | some sites =>
      if sites.any (fun s => s.devices.isNone) then .error .typeError
      else .ok (sites.flatMap (fun s => (s.devices.getD []).map (fun d => (d.id, d.type))))


/-! ## Structural lemmas about the parser -/

/-- The background nodes produced from a list of sites, given the incoming
`siteDimensions` state; later sites end up closer to the front of the node
array (each `unshift` prepends). -/
def bgNodesFrom (cfg : NetworkConfig) (dims : Rec (ℤ × ℤ)) : List Site → List RFNode
  | [] => []
  | s :: rest => bgNodesFrom cfg (dimsAfterSite dims s) rest ++ [bgOfSite cfg dims s]

/-- The device and header nodes produced from a list of sites, in push order. -/
def devHdrNodes (cfg : NetworkConfig) : List Site → List RFNode
  | [] => []
  | s :: rest =>
    deviceNodesAux (siteBase cfg s) 0 s.devices ++ [mkHeaderNode (siteBase cfg s) s]
      ++ devHdrNodes cfg rest

theorem parseNodesAux_eq (cfg : NetworkConfig) :
    ∀ (l : List Site) (acc : List RFNode) (dims : Rec (ℤ × ℤ)),
    parseNodesAux cfg acc dims l = bgNodesFrom cfg dims l ++ acc ++ devHdrNodes cfg l := by
  intro l
  induction l with
  | nil => intro acc dims; simp [parseNodesAux, bgNodesFrom, devHdrNodes]
  | cons s rest ih =>
    intro acc dims
    simp only [parseNodesAux, bgNodesFrom, devHdrNodes, ih]
    simp [List.append_assoc]

/-- The node array of `parseNetworkConfig`: reversed background nodes in
front, then the device nodes and headers of each site in order. -/
theorem parseNodes_eq (cfg : NetworkConfig) :
    (parseNetworkConfig cfg).nodes =
      bgNodesFrom cfg (siteDimensionsInit [] cfg.sites) cfg.sites ++ devHdrNodes cfg cfg.sites := by
  simp [parseNetworkConfig, parseNodesAux_eq]

theorem recGet_recSet_same {v : Type} (m : Rec v) (k : String) (x : v) :
    recGet (recSet m k x) k = some x := by
  simp [recGet, recSet]

theorem recGet_recSet_ne {v : Type} (m : Rec v) (k k' : String) (x : v) (h : k' ≠ k) :
    recGet (recSet m k x) k' = recGet m k' := by
  simp [recGet, recSet, List.find?_cons]
  have : (k == k') = false := by
    simp [beq_iff_eq]
    exact fun hc => h hc.symm
  simp [this]

theorem sitePositionsAux_untouched (k : String) :
    ∀ (l : List Site) (m : Rec (ℤ × ℤ)) (i : ℕ), k ∉ l.map Site.id →
    recGet (sitePositionsAux m i l) k = recGet m k := by
  intro l
  induction l with
  | nil => intro m i _; rfl
  | cons s rest ih =>
    intro m i hk
    simp only [List.map_cons, List.mem_cons, not_or] at hk
    simp only [sitePositionsAux]
    rw [ih _ _ hk.2, recGet_recSet_ne _ _ _ _ hk.1]

theorem sitePositionsAux_nodup_get (s : Site) :
    ∀ (l : List Site) (j : ℕ) (m : Rec (ℤ × ℤ)) (i : ℕ),
    (l.map Site.id).Nodup → l[j]? = some s →
    recGet (sitePositionsAux m i l) s.id = some ((((i + j : ℕ)) : ℤ) * 1100, 100) := by
  intro l
  induction l with
  | nil => intro j m i _ hj; simp at hj
  | cons s0 rest ih =>
    intro j m i hnd hj
    simp only [List.map_cons, List.nodup_cons] at hnd
    match j with
    | 0 =>
      simp only [List.getElem?_cons_zero, Option.some_inj] at hj
      subst hj
      simp only [sitePositionsAux]
      rw [sitePositionsAux_untouched _ _ _ _ hnd.1, recGet_recSet_same]
      simp
    | j + 1 =>
      simp only [List.getElem?_cons_succ] at hj
      simp only [sitePositionsAux]
      rw [ih j _ (i + 1) hnd.2 hj]
      have harith : (i + 1 + j : ℕ) = i + (j + 1) := by omega
      rw [harith]

/-- With unique site ids, each site's base position is its ordinal position
times the 1100-pixel site pitch, at the common base y-coordinate 100. -/
theorem siteBase_of_nodup (cfg : NetworkConfig) (i : ℕ) (s : Site)
    (hnd : (cfg.sites.map Site.id).Nodup) (hi : cfg.sites[i]? = some s) :
    siteBase cfg s = ((i : ℤ) * 1100, 100) := by
  unfold siteBase sitePositions
  rw [sitePositionsAux_nodup_get s cfg.sites i [] 0 hnd hi]
  simp

theorem sitePositionsAux_isSome (s : Site) :
    ∀ (l : List Site) (m : Rec (ℤ × ℤ)) (i : ℕ),
    s ∈ l ∨ (recGet m s.id).isSome → (recGet (sitePositionsAux m i l) s.id).isSome := by
  intro l
  induction l with
  | nil =>
    intro m i h
    rcases h with h | h
    · simp at h
    · exact h
  | cons s0 rest ih =>
    intro m i h
    simp only [sitePositionsAux]
    by_cases hs : s ∈ rest
    · exact ih _ _ (Or.inl hs)
    · apply ih _ _ ∘ Or.inr
      rcases h with h | h
      · rcases List.mem_cons.mp h with h | h
        · subst h; rw [recGet_recSet_same]; rfl
        · exact absurd h hs
      · by_cases hk : s.id = s0.id
        · rw [hk, recGet_recSet_same]; rfl
        · rw [recGet_recSet_ne _ _ _ _ hk]; exact h

theorem siteBase_isSome (cfg : NetworkConfig) (s : Site) (hs : s ∈ cfg.sites) :
    (recGet (sitePositions cfg) s.id).isSome := by
  exact sitePositionsAux_isSome s cfg.sites [] 0 (Or.inl hs)

theorem siteDimensionsInit_get (k : String) :
    ∀ (l : List Site) (m : Rec (ℤ × ℤ)),
    k ∈ l.map Site.id ∨ recGet m k = some (0, 0) →
    recGet (siteDimensionsInit m l) k = some (0, 0) := by
  intro l
  induction l with
  | nil =>
    intro m h
    rcases h with h | h
    · simp at h
    · exact h
  | cons s rest ih =>
    intro m h
    simp only [siteDimensionsInit]
    by_cases hk : k ∈ rest.map Site.id
    · exact ih _ (Or.inl hk)
    · apply ih _ ∘ Or.inr
      rcases h with h | h
      · simp only [List.map_cons, List.mem_cons] at h
        rcases h with h | h
        · rw [h, recGet_recSet_same]
        · exact absurd h hk
      · by_cases hke : k = s.id
        · rw [hke, recGet_recSet_same]
        · rw [recGet_recSet_ne _ _ _ _ hke]; exact h

/-- The background node of a site whose `siteDimensions` entry is still the
initial `(0, 0)` when the site is processed (always the case when site ids are
unique). -/
def pureBgNode (cfg : NetworkConfig) (s : Site) : RFNode :=
  mkBgNode (siteBase cfg s) (sitePaddedWidth 0 s) (sitePaddedHeight 0 s) s

/-- The background nodes of a list of sites, each computed from a fresh
dimension entry. -/
def pureBgList (cfg : NetworkConfig) : List Site → List RFNode
  | [] => []
  | s :: rest => pureBgList cfg rest ++ [pureBgNode cfg s]

theorem bgNodesFrom_of_nodup (cfg : NetworkConfig) :
    ∀ (l : List Site) (dims : Rec (ℤ × ℤ)), (l.map Site.id).Nodup →
    (∀ s ∈ l, recGet dims s.id = some (0, 0)) →
    bgNodesFrom cfg dims l = pureBgList cfg l := by
  intro l
  induction l with
  | nil => intro dims _ _; rfl
  | cons s rest ih =>
    intro dims hnd hget
    simp only [List.map_cons, List.nodup_cons] at hnd
    have hs : recGet dims s.id = some (0, 0) := hget s (List.mem_cons_self s rest)
    have hbg : bgOfSite cfg dims s = pureBgNode cfg s := by
      unfold bgOfSite pureBgNode
      rw [hs]
      simp
    have hrest : ∀ s2 ∈ rest, recGet (dimsAfterSite dims s) s2.id = some (0, 0) := by
      intro s2 hs2
      have hne : s2.id ≠ s.id := by
        intro he
        exact hnd.1 (he ▸ List.mem_map_of_mem Site.id hs2)
      unfold dimsAfterSite
      rw [recGet_recSet_ne _ _ _ _ hne]
      exact hget s2 (List.mem_cons_of_mem s hs2)
    simp only [bgNodesFrom, pureBgList, hbg, ih (dimsAfterSite dims s) hnd.2 hrest]

theorem pureBgNode_mem (cfg : NetworkConfig) (s : Site) :
    ∀ (l : List Site), s ∈ l → pureBgNode cfg s ∈ pureBgList cfg l := by
  intro l
  induction l with
  | nil => intro h; simp at h
  | cons s0 rest ih =>
    intro h
    rcases List.mem_cons.mp h with h | h
    · subst h; simp [pureBgList]
    · simp only [pureBgList, List.mem_append]
      exact Or.inl (ih h)

theorem siteDimensionsInit_all (cfg : NetworkConfig) :
    ∀ s ∈ cfg.sites, recGet (siteDimensionsInit [] cfg.sites) s.id = some (0, 0) := by
  intro s hs
  exact siteDimensionsInit_get s.id cfg.sites [] (Or.inl (List.mem_map_of_mem Site.id hs))

/-- The device-loop width fold never exceeds `max` of its seed and 800
(the widest cell: column 2, `2 * 250 + 300`). -/
theorem siteWidthFold_le : ∀ (l : List Device) (w : ℤ) (j : ℕ),
    siteWidthFold w j l ≤ max w 800 := by
  intro l
  induction l with
  | nil => intro w j; simp [siteWidthFold]
  | cons d rest ih =>
    intro w j
    have hcol : ((j % 3 : ℕ) : ℤ) ≤ 2 := by
      have : j % 3 < 3 := Nat.mod_lt j (by norm_num)
      omega
    calc siteWidthFold w j (d :: rest)
        = siteWidthFold (max w (((j % 3 : ℕ) : ℤ) * 250 + 150 + 150)) (j + 1) rest := rfl
      _ ≤ max (max w (((j % 3 : ℕ) : ℤ) * 250 + 150 + 150)) 800 := ih _ _
      _ ≤ max w 800 := by
          simp only [max_le_iff, le_max_iff]
          omega

/-- A site's padded background width never exceeds 1000 pixels, far below the
1100-pixel site pitch. -/
theorem sitePaddedWidth_le (s : Site) : sitePaddedWidth 0 s ≤ 1000 := by
  unfold sitePaddedWidth siteMinWidth
  have h1 : siteWidthFold 0 0 s.devices ≤ 800 := by
    have := siteWidthFold_le s.devices 0 0
    simpa using this
  have h2 : min 3 ((s.devices.length : ℤ)) * 250 ≤ 750 := by
    have : min 3 ((s.devices.length : ℤ)) ≤ 3 := min_le_left _ _
    omega
  simp only [max_le_iff]
  omega

theorem mem_deviceNodesAux (base : ℤ × ℤ) :
    ∀ (l : List Device) (j i0 : ℕ) (d : Device), l[j]? = some d →
    mkDeviceNode base (i0 + j) d ∈ deviceNodesAux base i0 l := by
  intro l
  induction l with
  | nil => intro j i0 d h; simp at h
  | cons d0 rest ih =>
    intro j i0 d h
    match j with
    | 0 =>
      simp only [List.getElem?_cons_zero, Option.some_inj] at h
      subst h
      simp [deviceNodesAux]
    | j + 1 =>
      simp only [List.getElem?_cons_succ] at h
      have := ih j (i0 + 1) d h
      have harith : (i0 + 1 + j : ℕ) = i0 + (j + 1) := by omega
      rw [harith] at this
      exact List.mem_cons_of_mem _ this

theorem mem_devHdrNodes (cfg : NetworkConfig) (s : Site) (x : RFNode) :
    ∀ (l : List Site), s ∈ l → x ∈ deviceNodesAux (siteBase cfg s) 0 s.devices →
    x ∈ devHdrNodes cfg l := by
  intro l
  induction l with
  | nil => intro h _; simp at h
  | cons s0 rest ih =>
    intro h hx
    simp only [devHdrNodes, List.mem_append]
    rcases List.mem_cons.mp h with h | h
    · subst h; exact Or.inl (Or.inl hx)
    · exact Or.inr (ih h hx)

/-- Every device of every site yields its grid node in the parser output. -/
theorem deviceNode_mem_parse (cfg : NetworkConfig) (site : Site) (j : ℕ) (dev : Device)
    (hs : site ∈ cfg.sites) (hd : site.devices[j]? = some dev) :
    mkDeviceNode (siteBase cfg site) j dev ∈ (parseNetworkConfig cfg).nodes := by
  rw [parseNodes_eq]
  apply List.mem_append_right
  apply mem_devHdrNodes cfg site _ cfg.sites hs
  have := mem_deviceNodesAux (siteBase cfg site) site.devices j 0 dev hd
  simpa using this

/-- With unique site ids, every site yields its background node (computed from
a fresh dimension entry) in the parser output. -/
theorem bgNode_mem_parse (cfg : NetworkConfig) (s : Site)
    (hnd : (cfg.sites.map Site.id).Nodup) (hs : s ∈ cfg.sites) :
    pureBgNode cfg s ∈ (parseNetworkConfig cfg).nodes := by
  rw [parseNodes_eq]
  apply List.mem_append_left
  rw [bgNodesFrom_of_nodup cfg cfg.sites _ hnd (siteDimensionsInit_all cfg)]
  exact pureBgNode_mem cfg s cfg.sites hs

/-! ## Edge-emission lemmas -/

theorem connectionEdgesAux_length (d : Device) :
    ∀ (l : List Connection) (i : ℕ), (connectionEdgesAux d i l).length = l.length := by
  intro l
  induction l with
  | nil => intro i; rfl
  | cons c rest ih => intro i; simp [connectionEdgesAux, ih]

theorem trunkEdgesAux_length (d : Device) :
    ∀ (l : List Connection) (i : ℕ), (trunkEdgesAux d i l).length = l.length := by
  intro l
  induction l with
  | nil => intro i; rfl
  | cons c rest ih => intro i; simp [trunkEdgesAux, ih]

theorem sanEdgesAux_length (d : Device) :
    ∀ (l : List Connection) (i : ℕ), (sanEdgesAux d i l).length = l.length := by
  intro l
  induction l with
  | nil => intro i; rfl
  | cons c rest ih => intro i; simp [sanEdgesAux, ih]

theorem vpnEntryEdges_length (cfg : NetworkConfig) (site : Site) (d : Device) (i : ℕ)
    (v : VpnConnection) :
    (vpnEntryEdges cfg site d i v).length = if (vpnResolve cfg v).isSome then 1 else 0 := by
  unfold vpnEntryEdges
  cases h : vpnResolve cfg v with
  | none => simp [h]
  | some p => cases p; simp [h]

theorem vpnEdgesAux_length (cfg : NetworkConfig) (site : Site) (d : Device) :
    ∀ (l : List VpnConnection) (i : ℕ),
    (vpnEdgesAux cfg site d i l).length = l.countP (fun v => (vpnResolve cfg v).isSome) := by
  intro l
  induction l with
  | nil => intro i; rfl
  | cons v rest ih =>
    intro i
    simp only [vpnEdgesAux, List.length_append, ih, List.countP_cons]
    rw [vpnEntryEdges_length]
    by_cases h : (vpnResolve cfg v).isSome
    · simp [h]
      omega
    · simp [h]

/-- Number of edges one device contributes: one per standard/trunk/SAN entry
unconditionally, one per VPN entry whose target resolves. -/
def devEdgeCount (cfg : NetworkConfig) (d : Device) : ℕ :=
  (d.connections.getD []).length
    + (d.vpn_connections.getD []).countP (fun v => (vpnResolve cfg v).isSome)
    + (d.trunk_connections.getD []).length
    + (d.san_connections.getD []).length

theorem deviceEdges_length (cfg : NetworkConfig) (site : Site) (d : Device) :
    (deviceEdges cfg site d).length = devEdgeCount cfg d := by
  simp only [deviceEdges, List.length_append, devEdgeCount, connectionEdges, trunkEdges,
    sanEdges, vpnEdges, connectionEdgesAux_length, trunkEdgesAux_length, sanEdgesAux_length,
    vpnEdgesAux_length]

theorem siteEdgesAux_length (cfg : NetworkConfig) (site : Site) :
    ∀ (l : List Device),
    (siteEdgesAux cfg site l).length = (l.map (fun d => devEdgeCount cfg d)).sum := by
  intro l
  induction l with
  | nil => rfl
  | cons d rest ih =>
    simp [siteEdgesAux, ih, deviceEdges_length]

theorem parseEdgesAux_length (cfg : NetworkConfig) :
    ∀ (l : List Site),
    (parseEdgesAux cfg l).length =
      (l.map (fun s => (s.devices.map (fun d => devEdgeCount cfg d)).sum)).sum := by
  intro l
  induction l with
  | nil => rfl
  | cons s rest ih =>
    simp [parseEdgesAux, ih, siteEdgesAux_length]

theorem mem_vpnEdgesAux (cfg : NetworkConfig) (site : Site) (d : Device) (x : RFEdge) :
    ∀ (l : List VpnConnection) (k i0 : ℕ) (v : VpnConnection), l[k]? = some v →
    x ∈ vpnEntryEdges cfg site d (i0 + k) v → x ∈ vpnEdgesAux cfg site d i0 l := by
  intro l
  induction l with
  | nil => intro k i0 v h _; simp at h
  | cons v0 rest ih =>
    intro k i0 v h hx
    simp only [vpnEdgesAux, List.mem_append]
    match k with
    | 0 =>
      simp only [List.getElem?_cons_zero, Option.some_inj] at h
      subst h
      exact Or.inl hx
    | k + 1 =>
      simp only [List.getElem?_cons_succ] at h
      refine Or.inr (ih k (i0 + 1) v h ?_)
      have harith : (i0 + 1 + k : ℕ) = i0 + (k + 1) := by omega
      rw [harith]
      exact hx

theorem mem_siteEdgesAux (cfg : NetworkConfig) (site : Site) (d : Device) (x : RFEdge) :
    ∀ (l : List Device), d ∈ l → x ∈ deviceEdges cfg site d → x ∈ siteEdgesAux cfg site l := by
  intro l
  induction l with
  | nil => intro h _; simp at h
  | cons d0 rest ih =>
    intro h hx
    simp only [siteEdgesAux, List.mem_append]
    rcases List.mem_cons.mp h with h | h
    · subst h; exact Or.inl hx
    · exact Or.inr (ih h hx)

theorem mem_parseEdgesAux (cfg : NetworkConfig) (s : Site) (x : RFEdge)
    (hx : x ∈ siteEdgesAux cfg s s.devices) :
    ∀ (l : List Site), s ∈ l → x ∈ parseEdgesAux cfg l := by
  intro l
  induction l with
  | nil => intro h; simp at h
  | cons s0 rest ih =>
    intro hs
    simp only [parseEdgesAux, List.mem_append]
    rcases List.mem_cons.mp hs with h | h
    · subst h; exact Or.inl hx
    · exact Or.inr (ih h)

theorem mem_parseEdges (cfg : NetworkConfig) (s : Site) (x : RFEdge)
    (hs : s ∈ cfg.sites) (hx : x ∈ siteEdgesAux cfg s s.devices) :
    x ∈ (parseNetworkConfig cfg).edges :=
  mem_parseEdgesAux cfg s x hx cfg.sites hs

/-! ## Node-counting lemmas -/

theorem bgNodesFrom_ntype (cfg : NetworkConfig) (x : RFNode) :
    ∀ (l : List Site) (dims : Rec (ℤ × ℤ)), x ∈ bgNodesFrom cfg dims l → x.ntype = "group" := by
  intro l
  induction l with
  | nil => intro dims h; simp [bgNodesFrom] at h
  | cons s rest ih =>
    intro dims h
    simp only [bgNodesFrom, List.mem_append, List.mem_singleton] at h
    rcases h with h | h
    · exact ih _ h
    · subst h; rfl

theorem countP_deviceNodesAux (did : String) (base : ℤ × ℤ) :
    ∀ (l : List Device) (i0 : ℕ),
    (deviceNodesAux base i0 l).countP (fun n => n.ntype == "networkNode" && n.id == did)
      = l.countP (fun d => d.id == did) := by
  intro l
  induction l with
  | nil => intro i0; rfl
  | cons d rest ih =>
    intro i0
    simp only [deviceNodesAux, List.countP_cons, ih]
    by_cases h : d.id = did <;> simp [mkDeviceNode, h]

theorem countP_devHdrNodes (cfg : NetworkConfig) (did : String) :
    ∀ (l : List Site),
    (devHdrNodes cfg l).countP (fun n => n.ntype == "networkNode" && n.id == did)
      = (l.map (fun s => s.devices.countP (fun d => d.id == did))).sum := by
  intro l
  induction l with
  | nil => rfl
  | cons s rest ih =>
    simp only [devHdrNodes, List.countP_append, ih, countP_deviceNodesAux, List.map_cons,
      List.sum_cons]
    simp [mkHeaderNode, List.countP_cons]

theorem countP_bgNodesFrom (cfg : NetworkConfig) (did : String) (l : List Site)
    (dims : Rec (ℤ × ℤ)) :
    (bgNodesFrom cfg dims l).countP (fun n => n.ntype == "networkNode" && n.id == did) = 0 := by
  rw [List.countP_eq_zero]
  intro x hx
  have := bgNodesFrom_ntype cfg x l dims hx
  simp [this]

theorem countP_flatMap_sum {α β : Type} (q : β → Bool) (f : α → List β) :
    ∀ (l : List α), (l.flatMap f).countP q = (l.map (fun a => (f a).countP q)).sum := by
  intro l
  induction l with
  | nil => rfl
  | cons a rest ih => simp [List.flatMap_cons, List.countP_append, ih]

/-- The number of device nodes carrying a given id equals the number of
devices with that id across the whole configuration. -/
theorem parseNodes_countP (cfg : NetworkConfig) (did : String) :
    (parseNetworkConfig cfg).nodes.countP (fun n => n.ntype == "networkNode" && n.id == did)
      = (cfg.sites.flatMap (fun s => s.devices.map Device.id)).count did := by
  rw [parseNodes_eq, List.countP_append, countP_bgNodesFrom, countP_devHdrNodes]
  rw [List.count_eq_countP, countP_flatMap_sum]
  simp only [List.countP_map]
  simp [Function.comp_def]

/-! ## Example configurations used by witnesses and counterexamples -/

/-- Example devices and sites: `hq` holds a switch followed by two routers,
`branch` holds a router with a VPN connection back to `hq`. -/
def swDev : Device := { id := "sw1", type := "switch" }

def r1Dev : Device := { id := "r1", type := "router" }

def r1bDev : Device := { id := "r1b", type := "router" }

def r2Dev : Device :=
  { id := "r2", type := "router", vpn_connections := some [{ to_site := "hq" }] }

def hqSite : Site := { id := "hq", name := "HQ", devices := [swDev, r1Dev, r1bDev] }

def branchSite : Site := { id := "branch", name := "Branch", devices := [r2Dev] }

def cfgDemo : NetworkConfig := { sites := [hqSite, branchSite] }

/-- One site whose only device declares a standard connection to a device id
that exists nowhere in the topology. -/
def cfgGhost : NetworkConfig :=
  { sites :=
      [ { id := "s1",
          devices :=
            [ { id := "srv", type := "server",
                connections := some [{ «to» := "ghost" }] } ] } ] }

/-! ## C4 — stagger index -/

theorem charSum_foldl : ∀ (l : List Char) (n : ℕ),
    l.foldl (fun sum c => sum + c.toNat) n = n + (l.map Char.toNat).sum := by
  intro l
  induction l with
  | nil => intro n; simp
  | cons c rest ih =>
    intro n
    simp only [List.foldl_cons, List.map_cons, List.sum_cons, ih]
    omega

/-- C4: for every edge identifier, the stagger index computed by the four
routing components equals the sum of the identifier's character codes modulo 3,
hence always lies in {0, 1, 2}, and depends on nothing but the identifier. -/
theorem c4_stagger_index (id : String) :
    edgeNumber id = (id.data.map Char.toNat).sum % 3 ∧ edgeNumber id < 3 := by
  constructor
  · unfold edgeNumber
    rw [charSum_foldl]
    simp
  · exact Nat.mod_lt _ (by norm_num)

/-! ## C3 — determinism of the pipeline -/

/-- C3: the load/layout pipeline is a pure function of the configuration and
of the anchor coordinates the renderer feeds back to the edge components: two
runs on equal inputs produce identical node placements and edge paths.  (The
source components read no clock and no randomness; the embedding is therefore
total and deterministic by construction.) -/
theorem c3_deterministic (c₁ c₂ : NetworkConfig) (a₁ a₂ : String → ℚ × ℚ × ℚ × ℚ)
    (hc : c₁ = c₂) (ha : a₁ = a₂) : pipelineRun c₁ a₁ = pipelineRun c₂ a₂ := by
  rw [hc, ha]

theorem c3_deterministic_witness :
    pipelineRun cfgDemo (fun _ => (0, 0, 0, 0)) = pipelineRun cfgDemo (fun _ => (0, 0, 0, 0)) :=
  c3_deterministic cfgDemo cfgDemo (fun _ => (0, 0, 0, 0)) (fun _ => (0, 0, 0, 0)) rfl rfl

/-! ## C5 — axis-aligned routing -/

theorem connectionPath_axisAligned (id : String) (sx sy tx ty : ℚ) :
    axisAligned (connectionPath id sx sy tx ty) := by
  unfold connectionPath
  dsimp only
  split_ifs <;> simp [axisAligned, List.chain'_cons]

theorem vpnPath_axisAligned (id : String) (sx sy tx ty : ℚ) :
    axisAligned (vpnPath id sx sy tx ty) := by
  unfold vpnPath
  dsimp only
  split_ifs <;> simp [axisAligned, List.chain'_cons]

theorem trunkPath_axisAligned (id : String) (sx sy tx ty : ℚ) :
    axisAligned (trunkPath id sx sy tx ty) := by
  unfold trunkPath
  dsimp only
  split_ifs <;> simp [axisAligned, List.chain'_cons]

theorem sanPath_axisAligned (id : String) (sx sy tx ty : ℚ) :
    axisAligned (sanPath id sx sy tx ty) := by
  unfold sanPath
  dsimp only
  split_ifs <;> simp [axisAligned, List.chain'_cons]

/-- C5 (counterexample to the strict reading): at coincident source and target
anchors, the trunk router emits a zero-length segment whose endpoints differ in
neither coordinate, so not every consecutive pair differs in exactly one of x
and y. -/
theorem c5_counterexample : ¬ strictAxisAligned (trunkPath "a" 0 0 0 0) := by
  have hpath : trunkPath "a" 0 0 0 0 = [((0 : ℚ), (0 : ℚ)), (0, 0)] := by
    unfold trunkPath
    norm_num
  intro h
  rw [hpath] at h
  simp [strictAxisAligned, List.chain'_cons] at h

/-- C5 (amended): every path any of the four routing components produces is a
sequence of axis-aligned segments: consecutive points agree in x or in y
(so they never differ in both coordinates; zero-length segments can occur when
coordinates coincide). -/
theorem c5_amended_axis_aligned (id : String) (sx sy tx ty : ℚ) :
    axisAligned (connectionPath id sx sy tx ty) ∧ axisAligned (vpnPath id sx sy tx ty) ∧
    axisAligned (trunkPath id sx sy tx ty) ∧ axisAligned (sanPath id sx sy tx ty) :=
  ⟨connectionPath_axisAligned id sx sy tx ty, vpnPath_axisAligned id sx sy tx ty,
   trunkPath_axisAligned id sx sy tx ty, sanPath_axisAligned id sx sy tx ty⟩

/-! ## C7 — loader error behavior -/

/-- A document whose only device is missing both required fields `id` and
`type` (its site has `id` and `devices` present). -/
def rawMissingType : RawConfig :=
  { sites := some [{ id := some "s1", devices := some [{}] }] }

/-- C7 (counterexample): a document with a device missing its required
`id`/`type` fields is not rejected at all — the load succeeds and the device is
processed with both fields `undefined`.  There is no `SchemaError`. -/
theorem c7_counterexample : loadRaw (.ok rawMissingType) = .ok [(none, none)] := by
  rfl

/-- C7 (amended): the loader rethrows the YAML parser's exception for
malformed text; it fails — with a runtime type error, not a dedicated
`SchemaError` — exactly when `sites` is missing or some site's `devices` is
missing; documents whose `sites` and per-site `devices` are present are
processed even when per-site `id` or per-device `id`/`type` are missing. -/
theorem c7_amended_load_errors :
    (∀ msg, loadRaw (.error msg) = .error (.parseException msg)) ∧
    (∀ cfg : RawConfig, (∃ out, loadRaw (.ok cfg) = .ok out) ↔
      ∃ sites, cfg.sites = some sites ∧ ∀ s ∈ sites, s.devices.isSome) := by
  constructor
  · intro msg; rfl
  · intro cfg
    cases hs : cfg.sites with
    | none =>
      simp only [loadRaw, hs]
      constructor
      · rintro ⟨out, hout⟩
        simp at hout
      · rintro ⟨sites2, hs2, _⟩
        exact Option.noConfusion hs2
    | some sites =>
      simp only [loadRaw, hs]
      by_cases h : sites.any (fun s => s.devices.isNone)
      · rw [if_pos h]
        constructor
        · rintro ⟨out, hout⟩
          simp at hout
        · rintro ⟨sites2, hs2, hall⟩
          obtain rfl : sites = sites2 := by injection hs2
          rcases List.any_eq_true.mp h with ⟨sBad, hmem, hnone⟩
          have hnone2 := hall sBad hmem
          rw [Option.isNone_iff_eq_none.mp hnone] at hnone2
          simp at hnone2
      · rw [if_neg h]
        constructor
        · intro _
          refine ⟨sites, rfl, fun s2 hmem => ?_⟩
          by_contra hns
          apply h
          exact List.any_eq_true.mpr
            ⟨s2, hmem, by simp [Option.not_isSome_iff_eq_none.mp hns]⟩
        · intro _
          exact ⟨_, rfl⟩

/-! ## C1 — edges per connection entry -/

/-- C1 (counterexample): the topology `cfgGhost` contains no device `ghost`,
yet its single standard connection entry targeting `ghost` still emits exactly
one edge (standard/trunk/SAN targets are never resolution-checked), so an
unresolvable entry does not emit zero edges. -/
theorem c1_counterexample :
    (∀ s ∈ cfgGhost.sites, ∀ d ∈ s.devices, d.id ≠ "ghost") ∧
    (parseNetworkConfig cfgGhost).edges.map RFEdge.target = ["ghost"] ∧
    (∀ n ∈ (parseNetworkConfig cfgGhost).nodes, n.id ≠ "ghost") := by
  decide

/-- C1 (amended): every standard, trunk and SAN connection entry emits exactly
one edge whether or not its target device exists; a VPN entry emits exactly one
edge when its `to_site` resolves to an existing site containing a router and
zero edges otherwise; the loader is a total function, so no exception
propagates for any well-typed topology. -/
theorem c1_amended_edge_counts (cfg : NetworkConfig) (site : Site) (d : Device) :
    (connectionEdges d).length = (d.connections.getD []).length ∧
    (trunkEdges d).length = (d.trunk_connections.getD []).length ∧
    (sanEdges d).length = (d.san_connections.getD []).length ∧
    (vpnEdges cfg site d).length
      = (d.vpn_connections.getD []).countP (fun v => (vpnResolve cfg v).isSome) ∧
    (parseNetworkConfig cfg).edges.length
      = (cfg.sites.map (fun s => (s.devices.map (fun d2 => devEdgeCount cfg d2)).sum)).sum := by
  refine ⟨connectionEdgesAux_length d _ 0, trunkEdgesAux_length d _ 0,
    sanEdgesAux_length d _ 0, vpnEdgesAux_length cfg site d _ 0, ?_⟩
  exact parseEdgesAux_length cfg cfg.sites

/-! ## C2 — device ordering within a site -/

/-- Modelled from the spec: the fixed presentation priority of device type
groups, `{router, firewall, vpn, switch, server, hypervisor, storage}`, with
types outside the set sharing the server group's rank.  This definition
renders the claimed ordering; the parser itself is the authority on what the
code actually does. -/
def specTypePriority (t : String) : ℕ :=
  if t = "router" then 0
  else if t = "firewall" then 1
  else if t = "vpn" then 2
  else if t = "switch" then 3
  else if t = "server" then 4
  else if t = "hypervisor" then 5
  else if t = "storage" then 6
  else 4

/-- One site declaring a server first and a router second. -/
def cfgTypeOrder : NetworkConfig :=
  { sites :=
      [ { id := "s",
          devices :=
            [ { id := "srv", type := "server" },
              { id := "rtr", type := "router" } ] } ] }

/-- C2 (counterexample): although the router outranks the server in the
claimed priority order, the parser places the server in the site's first grid
cell (x = 150) and the router after it (x = 400, same row): devices are laid
out in raw input order, not grouped by type. -/
theorem c2_counterexample :
    specTypePriority "router" < specTypePriority "server" ∧
    ((parseNetworkConfig cfgTypeOrder).nodes.filter (fun n => n.ntype == "networkNode")).map
        (fun n => (n.id, n.devType, n.x, n.y))
      = [("srv", some "server", 150, 200), ("rtr", some "router", 400, 200)] := by
  decide

/-- C2 (amended): within every site the parser places the device at input
index `j` in grid cell `(column j % 3, row j / 3)` relative to the site's base
position, in raw input order; no grouping or reordering by device type
occurs. -/
theorem c2_amended_raw_order (cfg : NetworkConfig) (site : Site) (j : ℕ) (dev : Device)
    (hs : site ∈ cfg.sites) (hd : site.devices[j]? = some dev) :
    ∃ base, recGet (sitePositions cfg) site.id = some base ∧
      mkDeviceNode base j dev ∈ (parseNetworkConfig cfg).nodes ∧
      (mkDeviceNode base j dev).x = base.1 + ((j % 3 : ℕ) : ℤ) * 250 + 150 ∧
      (mkDeviceNode base j dev).y = base.2 + 100 + ((j / 3 : ℕ) : ℤ) * 250 := by
  obtain ⟨b, hb⟩ := Option.isSome_iff_exists.mp (siteBase_isSome cfg site hs)
  have hbase : siteBase cfg site = b := by
    unfold siteBase
    rw [hb]
    rfl
  refine ⟨b, hb, ?_, rfl, rfl⟩
  have := deviceNode_mem_parse cfg site j dev hs hd
  rwa [hbase] at this

theorem c2_amended_witness :
    ∃ base, recGet (sitePositions cfgDemo) hqSite.id = some base ∧
      mkDeviceNode base 1 r1Dev ∈ (parseNetworkConfig cfgDemo).nodes ∧
      (mkDeviceNode base 1 r1Dev).x = base.1 + ((1 % 3 : ℕ) : ℤ) * 250 + 150 ∧
      (mkDeviceNode base 1 r1Dev).y = base.2 + 100 + ((1 / 3 : ℕ) : ℤ) * 250 :=
  c2_amended_raw_order cfgDemo hqSite 1 r1Dev (by decide) (by decide)

/-! ## C6 — VPN resolution -/

/-- `r` is the first device of type `router` in the device sequence `l`. -/
def firstRouter (l : List Device) (r : Device) : Prop :=
  ∃ pre post, l = pre ++ r :: post ∧ r.type = "router" ∧ ∀ x ∈ pre, x.type ≠ "router"

theorem find?_router_of_firstRouter (l : List Device) (r : Device) (h : firstRouter l r) :
    l.find? (fun dd => dd.type == "router") = some r := by
  obtain ⟨pre, post, rfl, hr, hpre⟩ := h
  rw [List.find?_eq_some]
  exact ⟨by simp [hr], pre, post, rfl, fun a ha => by simp [hpre a ha]⟩

/-- C6: a `vpn_connections` entry resolves to the first router of the first
site whose id matches `to_site`, emitting exactly one edge from the source
device to that router; when no site matches, or the matched site has no
router, the entry emits no edge (and the loader, being total, raises no
error). -/
theorem c6_vpn_resolution (cfg : NetworkConfig) (site : Site) (d : Device) (i : ℕ)
    (v : VpnConnection) :
    (∀ ts r, cfg.sites.find? (fun s => s.id == v.to_site) = some ts →
        firstRouter ts.devices r →
        vpnEntryEdges cfg site d i v = [mkVpnEdge site d i v ts r] ∧
        (mkVpnEdge site d i v ts r).source = d.id ∧
        (mkVpnEdge site d i v ts r).target = r.id) ∧
    ((∀ s ∈ cfg.sites, s.id ≠ v.to_site) → vpnEntryEdges cfg site d i v = []) ∧
    (∀ ts, cfg.sites.find? (fun s => s.id == v.to_site) = some ts →
        (∀ x ∈ ts.devices, x.type ≠ "router") → vpnEntryEdges cfg site d i v = []) := by
  refine ⟨?_, ?_, ?_⟩
  · intro ts r hts hfr
    refine ⟨?_, rfl, rfl⟩
    simp [vpnEntryEdges, vpnResolve, hts, find?_router_of_firstRouter ts.devices r hfr]
  · intro hnone
    have hfind : cfg.sites.find? (fun s => s.id == v.to_site) = none :=
      List.find?_eq_none.mpr (fun s hs => by simp [hnone s hs])
    simp [vpnEntryEdges, vpnResolve, hfind]
  · intro ts hts hno
    have hfind : ts.devices.find? (fun dd => dd.type == "router") = none :=
      List.find?_eq_none.mpr (fun x hx => by simp [hno x hx])
    simp [vpnEntryEdges, vpnResolve, hts, hfind]

theorem c6_vpn_resolution_witness :
    vpnEntryEdges cfgDemo branchSite r2Dev 0 { to_site := "hq" }
        = [mkVpnEdge branchSite r2Dev 0 { to_site := "hq" } hqSite r1Dev] ∧
    vpnEntryEdges cfgDemo branchSite r2Dev 0 { to_site := "nowhere" } = [] :=
  ⟨((c6_vpn_resolution cfgDemo branchSite r2Dev 0 { to_site := "hq" }).1 hqSite r1Dev
      (by decide) ⟨[swDev], [r1bDev], rfl, rfl, by decide⟩).1,
   (c6_vpn_resolution cfgDemo branchSite r2Dev 0 { to_site := "nowhere" }).2.1 (by decide)⟩

/-! ## C8 — placement uniqueness and grid packing -/

/-- C8: when device ids are globally unique, every device id labels exactly
one device placement in the output, and any two distinct devices of the same
site sit in distinct (row, column) grid cells, so their placements differ by
at least the 250-pixel grid pitch in x or in y — never overlapping in both
axes at once. -/
theorem c8_placements (cfg : NetworkConfig)
    (hids : (cfg.sites.flatMap (fun s => s.devices.map Device.id)).Nodup) :
    (∀ did ∈ cfg.sites.flatMap (fun s => s.devices.map Device.id),
      (parseNetworkConfig cfg).nodes.countP
        (fun n => n.ntype == "networkNode" && n.id == did) = 1) ∧
    (∀ site ∈ cfg.sites, ∀ (j k : ℕ) (dj dk : Device),
      site.devices[j]? = some dj → site.devices[k]? = some dk → j ≠ k →
      mkDeviceNode (siteBase cfg site) j dj ∈ (parseNetworkConfig cfg).nodes ∧
      mkDeviceNode (siteBase cfg site) k dk ∈ (parseNetworkConfig cfg).nodes ∧
      (j % 3 ≠ k % 3 ∨ j / 3 ≠ k / 3) ∧
      (250 ≤ |(mkDeviceNode (siteBase cfg site) j dj).x
                - (mkDeviceNode (siteBase cfg site) k dk).x| ∨
       250 ≤ |(mkDeviceNode (siteBase cfg site) j dj).y
                - (mkDeviceNode (siteBase cfg site) k dk).y|)) := by
  constructor
  · intro did hdid
    rw [parseNodes_countP]
    exact List.count_eq_one_of_mem hids hdid
  · intro site hs j k dj dk hj hk hjk
    refine ⟨deviceNode_mem_parse cfg site j dj hs hj,
      deviceNode_mem_parse cfg site k dk hs hk, by omega, ?_⟩
    simp only [mkDeviceNode, devicePosition]
    rw [le_abs, le_abs]
    omega

theorem c8_placements_witness :
    (parseNetworkConfig cfgDemo).nodes.countP
        (fun n => n.ntype == "networkNode" && n.id == "r1") = 1 ∧
    (250 ≤ |(mkDeviceNode (siteBase cfgDemo hqSite) 0 swDev).x
              - (mkDeviceNode (siteBase cfgDemo hqSite) 1 r1Dev).x| ∨
     250 ≤ |(mkDeviceNode (siteBase cfgDemo hqSite) 0 swDev).y
              - (mkDeviceNode (siteBase cfgDemo hqSite) 1 r1Dev).y|) :=
  ⟨(c8_placements cfgDemo (by decide)).1 "r1" (by decide),
   ((c8_placements cfgDemo (by decide)).2 hqSite (by decide) 0 1 swDev r1Dev
      (by decide) (by decide) (by decide)).2.2.2⟩

/-! ## C9 — site pitch and disjoint background boxes -/

/-- C9: with unique site ids (the spec's topology invariant), each site's
base position is its ordinal position times the fixed 1100-pixel pitch with
common base y 100, and the background boxes of any two distinct sites — whose
width never exceeds 1000 for any device count — have disjoint x-ranges. -/
theorem c9_site_pitch (cfg : NetworkConfig) (hnd : (cfg.sites.map Site.id).Nodup)
    (i j : ℕ) (si sj : Site) (hi : cfg.sites[i]? = some si) (hj : cfg.sites[j]? = some sj)
    (hij : i ≠ j) :
    siteBase cfg si = ((i : ℤ) * 1100, 100) ∧ siteBase cfg sj = ((j : ℤ) * 1100, 100) ∧
    pureBgNode cfg si ∈ (parseNetworkConfig cfg).nodes ∧
    pureBgNode cfg sj ∈ (parseNetworkConfig cfg).nodes ∧
    ((pureBgNode cfg si).x + (pureBgNode cfg si).width < (pureBgNode cfg sj).x ∨
     (pureBgNode cfg sj).x + (pureBgNode cfg sj).width < (pureBgNode cfg si).x) := by
  have hbi := siteBase_of_nodup cfg i si hnd hi
  have hbj := siteBase_of_nodup cfg j sj hnd hj
  have hmi : si ∈ cfg.sites := by
    obtain ⟨hlt, h⟩ := List.getElem?_eq_some_iff.mp hi
    exact h ▸ List.getElem_mem hlt
  have hmj : sj ∈ cfg.sites := by
    obtain ⟨hlt, h⟩ := List.getElem?_eq_some_iff.mp hj
    exact h ▸ List.getElem_mem hlt
  refine ⟨hbi, hbj, bgNode_mem_parse cfg si hnd hmi, bgNode_mem_parse cfg sj hnd hmj, ?_⟩
  have hwi := sitePaddedWidth_le si
  have hwj := sitePaddedWidth_le sj
  simp only [pureBgNode, mkBgNode, hbi, hbj]
  omega

theorem c9_site_pitch_witness :
    siteBase cfgDemo hqSite = (0, 100) ∧ siteBase cfgDemo branchSite = (1100, 100) ∧
    ((pureBgNode cfgDemo hqSite).x + (pureBgNode cfgDemo hqSite).width
        < (pureBgNode cfgDemo branchSite).x ∨
     (pureBgNode cfgDemo branchSite).x + (pureBgNode cfgDemo branchSite).width
        < (pureBgNode cfgDemo hqSite).x) := by
  have h := c9_site_pitch cfgDemo (by decide) 0 1 hqSite branchSite (by decide) (by decide)
    (by decide)
  exact ⟨by simpa using h.1, by simpa using h.2.1, h.2.2.2.2⟩

/-! ## C10 — VPN edge to the device's own site -/

/-- C10: a `vpn_connections` entry targeting the device's own site is neither
rejected nor dropped: it resolves to the site's first router and emits a VPN
edge whose `data.isCrossSite` is `false`; when the source device is itself
that router, the emitted edge is a self-loop (source = target). -/
theorem c10_self_site_vpn (cfg : NetworkConfig) (site : Site) (d r : Device) (k : ℕ)
    (v : VpnConnection) (hs : site ∈ cfg.sites) (hd : d ∈ site.devices)
    (hv : (d.vpn_connections.getD [])[k]? = some v)
    (hsite : cfg.sites.find? (fun s => s.id == v.to_site) = some site)
    (hr : site.devices.find? (fun dd => dd.type == "router") = some r) :
    mkVpnEdge site d k v site r ∈ (parseNetworkConfig cfg).edges ∧
    (mkVpnEdge site d k v site r).isCrossSite = some false ∧
    (mkVpnEdge site d k v site r).source = d.id ∧
    (mkVpnEdge site d k v site r).target = r.id ∧
    (r = d → (mkVpnEdge site d k v site r).source = (mkVpnEdge site d k v site r).target) := by
  have hentry : vpnEntryEdges cfg site d k v = [mkVpnEdge site d k v site r] := by
    simp [vpnEntryEdges, vpnResolve, hsite, hr]
  refine ⟨?_, by simp [mkVpnEdge], rfl, rfl, fun hrd => by subst hrd; rfl⟩
  apply mem_parseEdges cfg site _ hs
  apply mem_siteEdgesAux cfg site d _ site.devices hd
  apply List.mem_append_left
  apply List.mem_append_left
  apply List.mem_append_right
  show _ ∈ vpnEdges cfg site d
  unfold vpnEdges
  apply mem_vpnEdgesAux cfg site d _ _ k 0 v hv
  simp only [Nat.zero_add, hentry, List.mem_singleton]

/-- A single site whose only device is a router with a VPN connection to its
own site. -/
def soloDev : Device :=
  { id := "rs", type := "router", vpn_connections := some [{ to_site := "solo" }] }

def soloSite : Site := { id := "solo", devices := [soloDev] }

def cfgSelfVpn : NetworkConfig := { sites := [soloSite] }

theorem c10_self_site_vpn_witness :
    mkVpnEdge soloSite soloDev 0 { to_site := "solo" } soloSite soloDev
        ∈ (parseNetworkConfig cfgSelfVpn).edges ∧
    (mkVpnEdge soloSite soloDev 0 { to_site := "solo" } soloSite soloDev).isCrossSite
        = some false ∧
    (mkVpnEdge soloSite soloDev 0 { to_site := "solo" } soloSite soloDev).source
        = (mkVpnEdge soloSite soloDev 0 { to_site := "solo" } soloSite soloDev).target := by
  have h := c10_self_site_vpn cfgSelfVpn soloSite soloDev soloDev 0 { to_site := "solo" }
    (by decide) (by decide) (by decide) (by decide) (by decide)
  exact ⟨h.1, h.2.1, h.2.2.2.2 rfl⟩

end NetworkMap
